import Mathlib

/-!
Verification of the filtering and aggregation contract of the movie-ratings
dashboard (`src/app_movies6.py`).

The embedding below is a shallow translation of the program's own logic:
the loader `load_movies` (lines 31–38), the sidebar genre options (line 98),
the filtered view (lines 111–115), the aggregation shown in the Overview tab
(lines 132–133), and the four KPI cards (lines 53–91).  Pandas floating-point
columns are modelled with `ℚ`; a pandas `NaN` mean over zero rows is modelled
as `none`.
-/

namespace MovieDashboard

/-- One row of the loaded table, after `load_movies` assigns the canonical
column names `Film, Genre, CriticRating, AudienceRating, BudgetMillions, Year`
(line 34).  `Year` is held as a categorical label but compared as an integer
(`filtered.Year.astype(int)`, line 112), so it is an `Int` here; the three
numeric columns are floating point in pandas, modelled as `ℚ`. -/
structure Movie where
  film : String
  genre : String
  criticRating : ℚ
  audienceRating : ℚ
  budgetMillions : ℚ
  year : Int
deriving DecidableEq, Repr

/-- The two sidebar inputs (lines 99 and 104–109): a genre constraint, where
`none` is the sentinel `"All Genres"` meaning no constraint, and an inclusive
year range `(min, max)` from the slider. -/
structure Criteria where
  genreFilter : Option String
  yearRange : Int × Int
deriving DecidableEq, Repr

/-- Line 112: `filtered.Year.astype(int).between(year_range[0], year_range[1])`.
pandas `between` is inclusive at both ends by default. -/
def matchesYear (C : Criteria) (m : Movie) : Bool :=
  decide (C.yearRange.1 ≤ m.year) && decide (m.year ≤ C.yearRange.2)

/-- Lines 111–115: start from a copy of the dataset, keep the rows whose year
lies in the selected range, then — only when the selection is not
`"All Genres"` — keep the rows whose genre equals the selected genre. -/
def filterMovies (D : List Movie) (C : Criteria) : List Movie :=
  let byYear := D.filter (fun m => matchesYear C m)
  match C.genreFilter with
  | none => byYear
  | some g => byYear.filter (fun m => m.genre == g)

/-- Line 98's `movies.Genre.cat.categories`: the categorical domain of the
`Genre` column.  `astype('category')` (line 36) infers the categories as the
distinct observed values in sorted order. -/
def genreDomain (D : List Movie) : List String :=
  List.insertionSort (fun a b => a ≤ b) (D.map Movie.genre).dedup

/-- Line 98: `genre_options = ["All Genres"] + list(movies.Genre.cat.categories)`. -/
def genre_options (D : List Movie) : List String :=
  "All Genres" :: genreDomain D

/-- Mean of a numeric column as pandas computes it: the arithmetic mean, and
`NaN` (modelled as `none`) when the column has zero rows. -/
def seriesMean (xs : List ℚ) : Option ℚ :=
  if xs.isEmpty then none else some (xs.sum / xs.length)

/-- The aggregates the spec calls `Metrics`: row count plus the mean of each
numeric column, as displayed by the summary table produced from
`filtered[['CriticRating','AudienceRating','BudgetMillions']].describe()`
(lines 132–133).  Over zero rows pandas reports `count = 0` and `NaN` means. -/
structure Metrics where
  count : Nat
  meanCritic : Option ℚ
  meanAudience : Option ℚ
  meanBudget : Option ℚ
deriving DecidableEq, Repr

/-- The spec's `summarize(view)`: lines 117 (`len(filtered)`) and 132–133. -/
def summarize (view : List Movie) : Metrics :=
  { count := view.length,
    meanCritic := seriesMean (view.map Movie.criticRating),
    meanAudience := seriesMean (view.map Movie.audienceRating),
    meanBudget := seriesMean (view.map Movie.budgetMillions) }

/-- Ways `pd.read_csv(path)` (line 33) can fail before any table exists:
the file is missing or cannot be read. -/
inductive ReadError
  | missingFile
  | unreadable
deriving DecidableEq, Repr

/-- The spec's `LoadError` kinds: a failure of `pd.read_csv` (missing or
unreadable file, line 33) or the `ValueError` raised by the column rename on
line 34 when the parsed table does not have exactly six columns. -/
inductive LoadError
  | missingFile
  | unreadable
  | columnCountMismatch
deriving DecidableEq, Repr

/-- A parsed delimited table as `pd.read_csv` returns it: a header naming the
columns, and the data rows. -/
structure RawTable where
  header : List String
  rows : List (List String)
deriving DecidableEq, Repr

/-- Line 34: the six canonical column names assigned by `load_movies`. -/
def canonicalColumns : List String :=
  ["Film", "Genre", "CriticRating", "AudienceRating", "BudgetMillions", "Year"]

/-- Lines 31–38 (`load_movies`), with the external `pd.read_csv` call modelled
by the `Except ReadError RawTable` input: a read failure propagates (the
function raises, no dataset is produced); otherwise line 34 assigns the six
canonical column names, which raises `ValueError` ("Length mismatch") exactly
when the table's column count differs from six. -/
def load_movies (input : Except ReadError RawTable) : Except LoadError RawTable :=
  match input with
  | .error .missingFile => .error .missingFile
  | .error .unreadable => .error .unreadable
  | .ok t =>
      if t.header.length = canonicalColumns.length then
        .ok { header := canonicalColumns, rows := t.rows }
      else
        .error .columnCountMismatch

/-- The four headline KPI cards (lines 53–91): `movies.CriticRating.mean()`,
`movies.AudienceRating.mean()`, `movies.BudgetMillions.mean()`, `len(movies)`. -/
structure KpiCards where
  avgCriticRating : Option ℚ
  avgAudienceRating : Option ℚ
  avgBudget : Option ℚ
  totalMovies : Nat
deriving DecidableEq, Repr

/-- Lines 53–91: every KPI card is computed from the full loaded dataset. -/
def kpiCards (movies : List Movie) : KpiCards :=
  { avgCriticRating := seriesMean (movies.map Movie.criticRating),
    avgAudienceRating := seriesMean (movies.map Movie.audienceRating),
    avgBudget := seriesMean (movies.map Movie.budgetMillions),
    totalMovies := movies.length }

/-- The data-bearing values of one render of the page for a given loaded
dataset and sidebar selection: the KPI cards (lines 53–91, from `movies`),
the filtered view (lines 111–115), the sidebar count (line 117) and the
summary table (lines 132–133, from `filtered`). -/
structure PageState where
  kpis : KpiCards
  filtered : List Movie
  filteredCount : Nat
  summary : Metrics
deriving Repr

/-- One full recomputation of the page for a dataset and criteria, following
the top-to-bottom order of the script. -/
def renderPage (movies : List Movie) (C : Criteria) : PageState :=
  let filtered := filterMovies movies C
  { kpis := kpiCards movies,
    filtered := filtered,
    filteredCount := filtered.length,
    summary := summarize filtered }

/-- The combined row predicate of the two sidebar filters: taken with
`matchesYear`, row `m` survives lines 111–115 iff both hold. -/
def matchesGenre (C : Criteria) (m : Movie) : Bool :=
  match C.genreFilter with
  | none => true
  | some g => m.genre == g

theorem filterMovies_eq_filter (D : List Movie) (C : Criteria) :
    filterMovies D C = D.filter (fun m => matchesGenre C m && matchesYear C m) := by
  unfold filterMovies
  cases hC : C.genreFilter with
  | none => simp [matchesGenre, hC]
  | some g =>
      simp only [matchesGenre, hC, List.filter_filter]

theorem mem_filterMovies {D : List Movie} {C : Criteria} {m : Movie} :
    m ∈ filterMovies D C ↔
      m ∈ D ∧ matchesGenre C m = true ∧ matchesYear C m = true := by
  rw [filterMovies_eq_filter]
  simp [List.mem_filter, Bool.and_eq_true, and_assoc]

theorem filterMovies_sublist (D : List Movie) (C : Criteria) :
    (filterMovies D C).Sublist D := by
  rw [filterMovies_eq_filter]
  exact List.filter_sublist D

/-- Sample records used by the concrete witnesses, mirroring the spec's worked
example `D = [{A, Comedy, 2000}, {B, Drama, 2010}]`. -/
def movieA : Movie :=
  { film := "A", genre := "Comedy", criticRating := 60, audienceRating := 70,
    budgetMillions := 30, year := 2000 }

def movieB : Movie :=
  { film := "B", genre := "Drama", criticRating := 80, audienceRating := 85,
    budgetMillions := 50, year := 2010 }

def sampleD : List Movie := [movieA, movieB]

/-- C1: `filterMovies D C` returns exactly the records of `D` whose year lies
in the inclusive range and whose genre equals the filter when one is given;
in particular `yearRange = (Y, Y)` admits only records with `year = Y`, and
`yearRange = (max+1, max+1)` returns the empty sequence. -/
theorem filter_returns_exactly_matching_records :
    (∀ (D : List Movie) (g : Option String) (lo hi : Int) (m : Movie),
        m ∈ filterMovies D ⟨g, (lo, hi)⟩ ↔
          m ∈ D ∧ lo ≤ m.year ∧ m.year ≤ hi ∧ ∀ g0, g = some g0 → m.genre = g0) ∧
    (∀ (D : List Movie) (g : Option String) (Y : Int) (m : Movie),
        m ∈ filterMovies D ⟨g, (Y, Y)⟩ → m.year = Y) ∧
    (∀ (D : List Movie) (g : Option String) (M : Int),
        (∀ m ∈ D, m.year ≤ M) → filterMovies D ⟨g, (M + 1, M + 1)⟩ = []) := by
  have hmain : ∀ (D : List Movie) (g : Option String) (lo hi : Int) (m : Movie),
      m ∈ filterMovies D ⟨g, (lo, hi)⟩ ↔
        m ∈ D ∧ lo ≤ m.year ∧ m.year ≤ hi ∧ ∀ g0, g = some g0 → m.genre = g0 := by
    intro D g lo hi m
    rw [mem_filterMovies]
    cases g with
    | none => simp [matchesGenre, matchesYear, and_assoc]
    | some g0 =>
        simp only [matchesGenre, matchesYear, Bool.and_eq_true, decide_eq_true_eq,
          beq_iff_eq]
        constructor
        · rintro ⟨hmem, hg, hy1, hy2⟩
          exact ⟨hmem, hy1, hy2, fun g1 hg1 => by cases hg1; exact hg⟩
        · rintro ⟨hmem, hy1, hy2, hg⟩
          exact ⟨hmem, hg g0 rfl, hy1, hy2⟩
  refine ⟨hmain, ?_, ?_⟩
  · intro D g Y m hm
    have h := (hmain D g Y Y m).mp hm
    omega
  · intro D g M hbound
    rw [filterMovies_eq_filter]
    apply List.filter_eq_nil_iff.mpr
    intro m hm
    have hy := hbound m hm
    simp [matchesYear]
    intro _ h1
    omega

theorem filter_returns_exactly_matching_records_witness :
    movieB ∈ filterMovies sampleD ⟨some "Drama", (2005, 2015)⟩ ∧
    filterMovies sampleD ⟨none, (2011, 2011)⟩ = [] :=
  ⟨(filter_returns_exactly_matching_records.1 sampleD (some "Drama") 2005 2015 movieB).mpr
      ⟨by decide, by decide, by decide, by intro g0 hg; cases hg; rfl⟩,
    filter_returns_exactly_matching_records.2.2 sampleD none 2010 (by decide)⟩

/-- C2: on an empty filtered view `summarize` returns `count = 0` with every
mean field undefined (`none`, modelling pandas `NaN`), and is total (it does
not raise). -/
theorem summarize_empty_view (D : List Movie) (C : Criteria)
    (h : (filterMovies D C).length = 0) :
    summarize (filterMovies D C) =
      { count := 0, meanCritic := none, meanAudience := none, meanBudget := none } := by
  have hnil : filterMovies D C = [] := List.length_eq_zero.mp h
  rw [hnil]
  rfl

theorem summarize_empty_view_witness :
    (filterMovies [] ⟨none, (2000, 2010)⟩).length = 0 ∧
    summarize (filterMovies [] ⟨none, (2000, 2010)⟩) =
      { count := 0, meanCritic := none, meanAudience := none, meanBudget := none } :=
  ⟨rfl, summarize_empty_view [] ⟨none, (2000, 2010)⟩ rfl⟩

/-- C3: a year range with `min > max` produces the empty sequence (pandas
`between` matches nothing), not an error. -/
theorem filter_min_gt_max_empty (D : List Movie) (g : Option String) (lo hi : Int)
    (h : hi < lo) : filterMovies D ⟨g, (lo, hi)⟩ = [] := by
  rw [filterMovies_eq_filter]
  apply List.filter_eq_nil_iff.mpr
  intro m _
  simp [matchesYear]
  intro _ h1
  omega

theorem filter_min_gt_max_empty_witness :
    (1999 : Int) < 2000 ∧ filterMovies sampleD ⟨none, (2000, 1999)⟩ = [] :=
  ⟨by decide, filter_min_gt_max_empty sampleD none 2000 1999 (by decide)⟩

/-- C4: the filtered view is a subsequence of the dataset: every returned
record exists verbatim in `D`, and no record is fabricated or duplicated
(each record occurs in the view at most as often as in `D`). -/
theorem filter_subset_of_dataset (D : List Movie) (C : Criteria) :
    (filterMovies D C).Sublist D ∧
    (∀ m ∈ filterMovies D C, m ∈ D) ∧
    (∀ m : Movie, (filterMovies D C).count m ≤ D.count m) := by
  refine ⟨filterMovies_sublist D C, ?_, ?_⟩
  · intro m hm
    exact (filterMovies_sublist D C).subset hm
  · intro m
    exact (filterMovies_sublist D C).count_le m

theorem filter_subset_of_dataset_witness :
    (filterMovies sampleD ⟨some "Drama", (2005, 2015)⟩).Sublist sampleD :=
  (filter_subset_of_dataset sampleD ⟨some "Drama", (2005, 2015)⟩).1

/-- C5: the filtered view preserves the dataset's relative order: there is an
order-preserving embedding of the view's positions into the dataset's
positions along which the records agree. -/
theorem filter_preserves_relative_order (D : List Movie) (C : Criteria) :
    ∃ f : Fin (filterMovies D C).length ↪o Fin D.length,
      ∀ i, (filterMovies D C).get i = D.get (f i) :=
  List.sublist_iff_exists_fin_orderEmbedding_get_eq.mp (filterMovies_sublist D C)

theorem filter_preserves_relative_order_witness :
    ∃ f : Fin (filterMovies sampleD ⟨none, (1990, 2020)⟩).length ↪o Fin sampleD.length,
      ∀ i, (filterMovies sampleD ⟨none, (1990, 2020)⟩).get i = sampleD.get (f i) :=
  filter_preserves_relative_order sampleD ⟨none, (1990, 2020)⟩

theorem sum_map_ite_eq_zero {a : String} {dom : List String} (h : a ∉ dom) :
    (dom.map (fun g => if a = g then 1 else 0)).sum = 0 := by
  induction dom with
  | nil => rfl
  | cons g dom ih =>
      have hag : a ≠ g := fun he => h (he ▸ List.mem_cons_self g dom)
      have hdom : a ∉ dom := fun hm => h (List.mem_cons_of_mem g hm)
      simp [hag, ih hdom]

theorem sum_map_ite_eq_one {a : String} {dom : List String}
    (hnd : dom.Nodup) (hmem : a ∈ dom) :
    (dom.map (fun g => if a = g then 1 else 0)).sum = 1 := by
  induction dom with
  | nil => cases hmem
  | cons g dom ih =>
      rcases List.mem_cons.mp hmem with hag | hmem'
      · subst hag
        have hnot : a ∉ dom := (List.nodup_cons.mp hnd).1
        simp [sum_map_ite_eq_zero hnot]
      · have hag : a ≠ g := by
          intro he
          exact (he ▸ (List.nodup_cons.mp hnd).1) hmem'
        simp [hag, ih (List.nodup_cons.mp hnd).2 hmem']

theorem sum_map_add {α : Type} (dom : List α) (f g : α → Nat) :
    (dom.map (fun a => f a + g a)).sum = (dom.map f).sum + (dom.map g).sum := by
  induction dom with
  | nil => rfl
  | cons a dom ih =>
      simp only [List.map_cons, List.sum_cons, ih]
      omega

theorem length_filter_partition (dom : List String) (L : List Movie)
    (hnd : dom.Nodup) (hcov : ∀ m ∈ L, m.genre ∈ dom) :
    (dom.map (fun g => (L.filter (fun m => m.genre == g)).length)).sum = L.length := by
  induction L with
  | nil => simp
  | cons m L ih =>
      have hm : m.genre ∈ dom := hcov m (List.mem_cons_self m L)
      have hcov' : ∀ x ∈ L, x.genre ∈ dom := fun x hx => hcov x (List.mem_cons_of_mem m hx)
      have hsplit : ∀ g : String,
          ((m :: L).filter (fun x => x.genre == g)).length =
            (if m.genre = g then 1 else 0) + (L.filter (fun x => x.genre == g)).length := by
        intro g
        by_cases h : m.genre = g
        · simp [List.filter_cons, h, Nat.add_comm]
        · simp [List.filter_cons, h]
      calc (dom.map fun g => ((m :: L).filter (fun x => x.genre == g)).length).sum
          = (dom.map fun g =>
              (if m.genre = g then 1 else 0) +
                (L.filter (fun x => x.genre == g)).length).sum := by
            exact congrArg List.sum (List.map_congr_left (fun g _ => hsplit g))
        _ = (dom.map fun g => if m.genre = g then 1 else 0).sum +
              (dom.map fun g => (L.filter (fun x => x.genre == g)).length).sum :=
            sum_map_add dom _ _
        _ = 1 + L.length := by rw [sum_map_ite_eq_one hnd hm, ih hcov']
        _ = (m :: L).length := by simp [List.length_cons, Nat.add_comm]

theorem genreDomain_nodup (D : List Movie) : (genreDomain D).Nodup :=
  (List.perm_insertionSort (fun a b => a ≤ b) (D.map Movie.genre).dedup).nodup_iff.mpr
    (List.nodup_dedup _)

theorem mem_genreDomain {D : List Movie} {m : Movie} (hm : m ∈ D) :
    m.genre ∈ genreDomain D :=
  (List.perm_insertionSort (fun a b => a ≤ b) (D.map Movie.genre).dedup).mem_iff.mpr
    (List.mem_dedup.mpr (List.mem_map_of_mem Movie.genre hm))

/-- C6: with `genreFilter = none` the filtered count equals the sum of the
filtered counts over every genre value of the dataset's genre domain — the
per-genre views partition the unconstrained view, so no record is excluded
when the genre constraint is absent. -/
theorem filter_no_genre_is_union_over_domain (D : List Movie) (lo hi : Int) :
    (filterMovies D ⟨none, (lo, hi)⟩).length =
      ((genreDomain D).map
        (fun g => (filterMovies D ⟨some g, (lo, hi)⟩).length)).sum := by
  have hsome : ∀ g : String,
      filterMovies D ⟨some g, (lo, hi)⟩ =
        (filterMovies D ⟨none, (lo, hi)⟩).filter (fun m => m.genre == g) :=
    fun g => rfl
  have hcov : ∀ m ∈ filterMovies D ⟨none, (lo, hi)⟩, m.genre ∈ genreDomain D :=
    fun m hm => mem_genreDomain ((filterMovies_sublist D ⟨none, (lo, hi)⟩).subset hm)
  calc (filterMovies D ⟨none, (lo, hi)⟩).length
      = ((genreDomain D).map
          (fun g => ((filterMovies D ⟨none, (lo, hi)⟩).filter
            (fun m => m.genre == g)).length)).sum :=
        (length_filter_partition (genreDomain D) _ (genreDomain_nodup D) hcov).symm
    _ = ((genreDomain D).map
          (fun g => (filterMovies D ⟨some g, (lo, hi)⟩).length)).sum := by
        exact congrArg List.sum
          (List.map_congr_left (fun g _ => by rw [hsome g]))

theorem filter_no_genre_is_union_over_domain_witness :
    (filterMovies sampleD ⟨none, (1990, 2020)⟩).length =
      ((genreDomain sampleD).map
        (fun g => (filterMovies sampleD ⟨some g, (1990, 2020)⟩).length)).sum :=
  filter_no_genre_is_union_over_domain sampleD 1990 2020

/-- C7: a genre filter whose value is absent from the dataset's genre domain
yields the empty view; a year range disjoint from the observed years likewise
yields the empty view; and filtering never yields more records than the
dataset holds — in every case a result, never an error. -/
theorem filter_out_of_domain_empty (D : List Movie) (g : String) (gf : Option String)
    (lo hi : Int) :
    (g ∉ genreDomain D → filterMovies D ⟨some g, (lo, hi)⟩ = []) ∧
    ((∀ m ∈ D, m.year < lo ∨ hi < m.year) → filterMovies D ⟨gf, (lo, hi)⟩ = []) ∧
    (filterMovies D ⟨gf, (lo, hi)⟩).length ≤ D.length := by
  refine ⟨?_, ?_, ?_⟩
  · intro hg
    rw [filterMovies_eq_filter]
    apply List.filter_eq_nil_iff.mpr
    intro m hm
    simp only [matchesGenre, Bool.and_eq_true, beq_iff_eq, not_and]
    intro hgen
    exact absurd (hgen ▸ mem_genreDomain hm) hg
  · intro hy
    rw [filterMovies_eq_filter]
    apply List.filter_eq_nil_iff.mpr
    intro m hm
    have := hy m hm
    simp only [matchesYear, Bool.and_eq_true, decide_eq_true_eq, not_and]
    intro _ h1
    omega
  · exact (filterMovies_sublist D ⟨gf, (lo, hi)⟩).length_le

theorem filter_out_of_domain_empty_witness :
    filterMovies sampleD ⟨some "SciFi", (1990, 2020)⟩ = [] ∧
    filterMovies sampleD ⟨none, (1900, 1905)⟩ = [] :=
  ⟨(filter_out_of_domain_empty sampleD "SciFi" none 1990 2020).1
      (by
        intro hmem
        have hmap : "SciFi" ∈ sampleD.map Movie.genre :=
          List.mem_dedup.mp
            ((List.perm_insertionSort (fun a b => a ≤ b)
              (sampleD.map Movie.genre).dedup).mem_iff.mp hmem)
        simp [sampleD, movieA, movieB] at hmap),
    (filter_out_of_domain_empty sampleD "SciFi" none 1900 1905).2.1 (by decide)⟩

/-- C8: `load_movies` fails when the file is missing or unreadable or when the
parsed table's column count differs from six, and in the failure case no
dataset (not even a partial one) is produced; on success it assigns the six
canonical column names regardless of the source header text. -/
theorem load_movies_rejects_bad_input_and_renames :
    (∀ (e : ReadError) (t : RawTable), load_movies (.error e) ≠ .ok t) ∧
    (∀ t : RawTable, t.header.length ≠ 6 →
        load_movies (.ok t) = .error .columnCountMismatch) ∧
    (∀ t : RawTable, t.header.length = 6 →
        load_movies (.ok t) = .ok { header := canonicalColumns, rows := t.rows }) := by
  refine ⟨?_, ?_, ?_⟩
  · intro e t
    cases e <;> simp [load_movies]
  · intro t h
    have h6 : canonicalColumns.length = 6 := rfl
    simp [load_movies, h6, h]
  · intro t h
    have h6 : canonicalColumns.length = 6 := rfl
    simp [load_movies, h6, h]

theorem load_movies_rejects_bad_input_and_renames_witness :
    (["a", "b", "c", "d", "e"].length ≠ 6 ∧
      load_movies (.ok { header := ["a", "b", "c", "d", "e"], rows := [] }) =
        .error .columnCountMismatch) ∧
    (["t", "g", "c", "a", "b", "y"].length = 6 ∧
      load_movies (.ok { header := ["t", "g", "c", "a", "b", "y"], rows := [] }) =
        .ok { header := canonicalColumns, rows := [] }) :=
  ⟨⟨by decide,
      load_movies_rejects_bad_input_and_renames.2.1
        { header := ["a", "b", "c", "d", "e"], rows := [] } (by decide)⟩,
    ⟨by decide,
      load_movies_rejects_bad_input_and_renames.2.2
        { header := ["t", "g", "c", "a", "b", "y"], rows := [] } (by decide)⟩⟩

/-- C9: filtering is deterministic — it is a pure function of the dataset and
the criteria, so two calls with identical arguments return equal sequences. -/
theorem filter_deterministic (D1 D2 : List Movie) (C1 C2 : Criteria)
    (hD : D1 = D2) (hC : C1 = C2) : filterMovies D1 C1 = filterMovies D2 C2 := by
  rw [hD, hC]

theorem filter_deterministic_witness :
    filterMovies sampleD ⟨some "Drama", (2005, 2015)⟩ =
      filterMovies sampleD ⟨some "Drama", (2005, 2015)⟩ :=
  filter_deterministic sampleD sampleD ⟨some "Drama", (2005, 2015)⟩
    ⟨some "Drama", (2005, 2015)⟩ rfl rfl

/-- C10: the four headline KPI cards are computed over the full loaded
dataset, never over the filtered view: whatever criteria a render uses, its
KPI values equal `kpiCards` of the dataset, hence are identical across any two
choices of criteria. -/
theorem kpis_independent_of_criteria (D : List Movie) (C1 C2 : Criteria) :
    (renderPage D C1).kpis = kpiCards D ∧
    (renderPage D C1).kpis = (renderPage D C2).kpis :=
  ⟨rfl, rfl⟩

theorem kpis_independent_of_criteria_witness :
    (renderPage sampleD ⟨some "Drama", (2005, 2015)⟩).kpis = kpiCards sampleD ∧
    (renderPage sampleD ⟨some "Drama", (2005, 2015)⟩).kpis =
      (renderPage sampleD ⟨none, (1900, 1905)⟩).kpis :=
  kpis_independent_of_criteria sampleD ⟨some "Drama", (2005, 2015)⟩ ⟨none, (1900, 1905)⟩

end MovieDashboard
